import Mathlib

/-!
Verification development for the page-navigation and interrupt-handling
engine of this repository (module/ui/ui.py and module/coalition/ui.py).

The Python code is shallowly embedded: each method becomes a Lean
function over explicit state and per-tick observations.  Visual
perception (`self.appear`, handlers inherited from `InfoHandler`,
interval timers gating repeated template matches) is external to the
embedded core; every such query is represented by a Boolean field of the
per-tick observation record.  A device click is recorded by appending
the clicked button to an output list.  Python exceptions become
`Except` errors.
-/

namespace AlasUI

/-- The buttons (assets) referenced by `UI.ui_additional`,
`UI.ui_page_main_popups`, `UI.ui_page_os_popups` and `UI.handle_idle_page`
in module/ui/ui.py, in order of appearance. -/
inductive Btn
  | RESET_TICKET_POPUP
  | RESET_FLEET_PREPARATION
  | EXCHANGE_CHECK
  | GOTO_MAIN
  | LOGIN_ANNOUNCE
  | LOGIN_ANNOUNCE_2
  | GET_ITEMS_1
  | GET_ITEMS_2
  | GET_SHIP
  | LOGIN_RETURN_SIGN
  | EVENT_LIST_CHECK
  | MONTHLY_PASS_NOTICE
  | BATTLE_PASS_NOTICE
  | BATTLE_PASS_NEW_SEASON
  | BACK_ARROW
  | SHIPYARD_CHECK
  | META_CHECK
  | PLAYER_CHECK
  | GAME_TIPS
  | DORM_INFO
  | DORM_FEED_CANCEL
  | DORM_TROPHY_CONFIRM
  | MEOWFFICER_INFO
  | MEOWFFICER_BUY
  | MAP_PREPARATION
  | FLEET_PREPARATION
  | RAID_FLEET_PREPARATION
  | MAP_PREPARATION_CANCEL
  | AUTO_SEARCH_MENU_EXIT
  | AUTO_SEARCH_REWARD
  | WITHDRAW
  | LOGIN_CHECK
  | MAINTENANCE_ANNOUNCE
  | EXERCISE_PREPARATION
  | DAL_DIFFICULTY_EXIT
  | REWARD_GOTO_MAIN
  | MAIN_GOTO_MEMORIES_WHITE
  | MAIN_TAB_SWITCH_WHITE
  deriving DecidableEq, Repr

/-- One tick's observation of the screen, as consumed by the interrupt
chain.  `appear b` is the result of `self.appear(b, ...)` on the current
frame (the offset tolerance and the per-button minimum re-check interval
are folded into this Boolean oracle: an interval-gated check that is
suppressed this tick simply reads `false`).  The remaining fields are the
Boolean results of the handler methods inherited from `InfoHandler` /
story and popup handlers, whose own clicks happen outside the embedded
module. -/
structure Obs where
  appear : Btn → Bool
  guildPopupCancel : Bool
  popupConfirm : Bool
  urgentCommission : Bool
  storySkip : Bool
  popupSingleItemExpired : Bool
  popupSingleWhite : Bool
  idleTimerReached : Bool
  idleMatch1 : Bool
  idleMatch2 : Bool
  idleMatch3 : Bool

/-- `UI.handle_idle_page` (module/ui/ui.py lines 719-746): if the
3-second interval timer for IDLE has not been reached, report nothing;
otherwise each of the three IDLE template matches clicks
REWARD_GOTO_MAIN and reports handled. -/
def handleIdlePage (o : Obs) : List Btn × Bool :=
  if !o.idleTimerReached then ([], false)
  else if o.idleMatch1 then ([Btn.REWARD_GOTO_MAIN], true)
  else if o.idleMatch2 then ([Btn.REWARD_GOTO_MAIN], true)
  else if o.idleMatch3 then ([Btn.REWARD_GOTO_MAIN], true)
  else ([], false)

/-- `UI.ui_page_os_popups` (module/ui/ui.py lines 578-611).
`n` is `self._opsi_reset_fleet_preparation_click`.  When the counter has
reached 5 the method raises RequestHumanTakeover (the `Except.error`
case); otherwise it dismisses the reset-ticket popup, confirms the
reset-fleet-preparation popup (incrementing the counter), or leaves the
exchange shop toward the main page.  Returns (clicks, handled, counter). -/
def uiPageOsPopups (n : Nat) (o : Obs) : Except Unit (List Btn × Bool × Nat) :=
  if 5 ≤ n then .error ()
  else if o.appear .RESET_TICKET_POPUP then .ok ([.RESET_TICKET_POPUP], true, n)
  else if o.appear .RESET_FLEET_PREPARATION then .ok ([.RESET_FLEET_PREPARATION], true, n + 1)
  else if o.appear .EXCHANGE_CHECK then .ok ([.GOTO_MAIN], true, n)
  else .ok ([], false, n)

/-- One predicate→action pair of the interrupt chain.  `guard` is the
source `if` condition; `act` receives the current frame and (for the one
rule that re-screenshots mid-action, WITHDRAW) the post-sleep frame, and
returns the clicks it issues together with whether it reports handled. -/
structure Rule where
  guard : Obs → Bool
  act : Obs → Obs → List Btn × Bool

/-- An `appear_then_click(b)` rule: if `b` appears, click `b`, handled. -/
def atc (b : Btn) : Rule :=
  ⟨fun o => o.appear b, fun _ _ => ([b], true)⟩

/-- A rule that, when `g` appears, clicks a different button `c`. -/
def seenClick (g c : Btn) : Rule :=
  ⟨fun o => o.appear g, fun _ _ => ([c], true)⟩

/-- A rule delegating to an external handler method: its clicks happen
outside the embedded module, so only the handled flag is modelled. -/
def extRule (f : Obs → Bool) : Rule :=
  ⟨f, fun _ _ => ([], true)⟩

/-- The composite shape `if appear(g): if appear_then_click(GOTO_MAIN):
return True` of module/ui/ui.py lines 538-541, 560-567: the outer
template matches, but the click is issued (and handled reported) only if
GOTO_MAIN is itself visible; otherwise control falls through. -/
def condGotoMain (g : Btn) : Rule :=
  ⟨fun o => o.appear g,
   fun o _ => if o.appear .GOTO_MAIN then ([.GOTO_MAIN], true) else ([], false)⟩

/-- The PLAYER_CHECK rule (lines 569-574): try GOTO_MAIN, then
BACK_ARROW; fall through if neither appears. -/
def playerRule : Rule :=
  ⟨fun o => o.appear .PLAYER_CHECK,
   fun o _ =>
     if o.appear .GOTO_MAIN then ([.GOTO_MAIN], true)
     else if o.appear .BACK_ARROW then ([.BACK_ARROW], true)
     else ([], false)⟩

/-- The WITHDRAW rule (lines 681-690): WITHDRAW seen on the current
frame; after a settling sleep and a fresh screenshot (the second
observation) it is clicked only if still present, else falls through. -/
def withdrawRule : Rule :=
  ⟨fun o => o.appear .WITHDRAW,
   fun _ o2 => if o2.appear .WITHDRAW then ([.WITHDRAW], true) else ([], false)⟩

/-- The rules of `UI.ui_page_main_popups` (module/ui/ui.py lines
508-576) in declaration order.  `getShip` is the method's `get_ship`
argument, which gates the GET_SHIP rule. -/
def uiPageMainPopupsRules (getShip : Bool) : List Rule :=
  [ extRule (fun o => o.guildPopupCancel),
    atc .LOGIN_ANNOUNCE,
    atc .LOGIN_ANNOUNCE_2,
    atc .GET_ITEMS_1,
    atc .GET_ITEMS_2,
    ⟨fun o => getShip && o.appear .GET_SHIP, fun _ _ => ([.GET_SHIP], true)⟩,
    atc .LOGIN_RETURN_SIGN,
    condGotoMain .EVENT_LIST_CHECK,
    atc .MONTHLY_PASS_NOTICE,
    atc .BATTLE_PASS_NOTICE,
    seenClick .BATTLE_PASS_NEW_SEASON .BACK_ARROW,
    extRule (fun o => o.popupSingleItemExpired),
    extRule (fun o => o.popupSingleWhite),
    condGotoMain .SHIPYARD_CHECK,
    condGotoMain .META_CHECK,
    playerRule ]

/-- The rules evaluated by `UI.ui_additional` (module/ui/ui.py lines
613-717) after the OpSi popup block, in declaration order.  Steps 2-3
are `handle_popup_confirm`, `handle_urgent_commission` and the inlined
`ui_page_main_popups` chain; then story skip, game tips, dorm,
meowfficer, preparation, auto-search, withdraw, login/maintenance,
exercise, DAL difficulty exit, idle page and white-theme tab rules. -/
def uiAdditionalRest (getShip : Bool) : List Rule :=
  [ extRule (fun o => o.popupConfirm),
    extRule (fun o => o.urgentCommission) ]
  ++ uiPageMainPopupsRules getShip ++
  [ extRule (fun o => o.storySkip),
    seenClick .GAME_TIPS .GOTO_MAIN,
    seenClick .DORM_INFO .DORM_INFO,
    atc .DORM_FEED_CANCEL,
    atc .DORM_TROPHY_CONFIRM,
    atc .MEOWFFICER_INFO,
    seenClick .MEOWFFICER_BUY .BACK_ARROW,
    ⟨fun o => o.appear .MAP_PREPARATION || o.appear .FLEET_PREPARATION
        || o.appear .RAID_FLEET_PREPARATION,
     fun _ _ => ([.MAP_PREPARATION_CANCEL], true)⟩,
    atc .AUTO_SEARCH_MENU_EXIT,
    atc .AUTO_SEARCH_REWARD,
    withdrawRule,
    atc .LOGIN_CHECK,
    atc .MAINTENANCE_ANNOUNCE,
    seenClick .EXERCISE_PREPARATION .GOTO_MAIN,
    atc .DAL_DIFFICULTY_EXIT,
    ⟨fun o => (handleIdlePage o).2, fun o _ => handleIdlePage o⟩,
    seenClick .MAIN_GOTO_MEMORIES_WHITE .MAIN_TAB_SWITCH_WHITE ]

/-- The three `ui_page_os_popups` dismissal rules (lines 596-609), seen
as chain rules (their counter side effect lives in `uiPageOsPopups`). -/
def osRules : List Rule :=
  [ atc .RESET_TICKET_POPUP,
    atc .RESET_FLEET_PREPARATION,
    seenClick .EXCHANGE_CHECK .GOTO_MAIN ]

/-- The whole interrupt chain of `ui_additional`, in evaluation order. -/
def fullRules (getShip : Bool) : List Rule :=
  osRules ++ uiAdditionalRest getShip

/-- Evaluation of a sequence of source `if` blocks: the first rule whose
guard holds runs its action; if the action reports handled the chain
stops with `true`, otherwise evaluation falls through to the remaining
rules (accumulating any clicks the action issued, which for every rule
of this file is none on fallthrough). -/
def runChain : List Rule → Obs → Obs → List Btn × Bool
  | [], _, _ => ([], false)
  | r :: rs, o, o2 =>
    if r.guard o then
      let a := r.act o o2
      if a.2 then (a.1, true)
      else
        let b := runChain rs o o2
        (a.1 ++ b.1, b.2)
    else runChain rs o o2

/-- `UI.ui_additional` (module/ui/ui.py lines 613-717): first the OpSi
popup block (which may raise RequestHumanTakeover), then the remaining
rules in declaration order.  Returns (clicks, handled, opsi counter). -/
def uiAdditional (getShip : Bool) (n : Nat) (o o2 : Obs) :
    Except Unit (List Btn × Bool × Nat) :=
  match uiPageOsPopups n o with
  | .error e => .error e
  | .ok (cs, true, n') => .ok (cs, true, n')
  | .ok (_, false, n') =>
    let r := runChain (uiAdditionalRest getShip) o o2
    .ok (r.1, r.2, n')

/-- A rule fires when its guard holds and its action reports handled. -/
def Rule.fires (r : Rule) (o o2 : Obs) : Prop :=
  r.guard o = true ∧ (r.act o o2).2 = true

instance (r : Rule) (o o2 : Obs) : Decidable (r.fires o o2) := by
  unfold Rule.fires; infer_instance

/-- A rule is fallthrough-silent: when its action does not report
handled it issues no click. -/
def Rule.silent (r : Rule) : Prop :=
  ∀ o o2 : Obs, (r.act o o2).2 = false → (r.act o o2).1 = []

/-- The observation with nothing on screen and no handler firing. -/
def blankObs : Obs :=
  { appear := fun _ => false
    guildPopupCancel := false, popupConfirm := false
    urgentCommission := false, storySkip := false
    popupSingleItemExpired := false, popupSingleWhite := false
    idleTimerReached := false, idleMatch1 := false
    idleMatch2 := false, idleMatch3 := false }

/-- A blank frame on which only the listed buttons appear. -/
def obsOf (bs : List Btn) : Obs :=
  { blankObs with appear := fun b => bs.contains b }

/-- A frame on which the EVENT_LIST_CHECK rule's template matches but
GOTO_MAIN is absent, while the later MONTHLY_PASS_NOTICE rule also
matches. -/
def c4Frame1 : Obs := obsOf [.EVENT_LIST_CHECK, .MONTHLY_PASS_NOTICE]

/-- A frame on which only EVENT_LIST_CHECK matches (GOTO_MAIN absent). -/
def c4Frame2 : Obs := obsOf [.EVENT_LIST_CHECK]

/-- Iterated invocation of `ui_page_os_popups`, one call per polling
tick, threading `self._opsi_reset_fleet_preparation_click`.  Returns the
total number of RESET_FLEET_PREPARATION clicks issued and whether the
RequestHumanTakeover raise was reached. -/
def runOsLoop : Nat → List Obs → Nat × Bool
  | _, [] => (0, false)
  | n, o :: rest =>
    match uiPageOsPopups n o with
    | .error _ => (0, true)
    | .ok (cs, _, n') =>
      let r := runOsLoop n' rest
      (cs.count .RESET_FLEET_PREPARATION + r.1, r.2)

end AlasUI

namespace Coalition

/-- The coalition events dispatched on in module/coalition/ui.py. -/
inductive CoEvent
  | c20230323
  | c20240627
  | c20250626
  | c20251120
  | c20260122
  deriving DecidableEq, BEq, Repr

/-- The coalition assets referenced by `CoalitionUI.enter_map` and the
lookup tables it uses (module/coalition/ui.py). -/
inductive CBtn
  | FROSTFALL_TC1 | FROSTFALL_TC2 | FROSTFALL_TC3 | FROSTFALL_SP | FROSTFALL_EX
  | ACADEMY_EASY | ACADEMY_NORMAL | ACADEMY_HARD | ACADEMY_SP | ACADEMY_EX
  | NEONCITY_EASY | NEONCITY_NORMAL | NEONCITY_HARD | NEONCITY_SP | NEONCITY_EX
  | DAL_AREA1 | DAL_AREA2 | DAL_AREA3 | DAL_AREA4 | DAL_AREA5 | DAL_AREA6
  | Light_Shadow_Fashion_AREA1 | Light_Shadow_Fashion_AREA2
  | Light_Shadow_Fashion_AREA3 | Light_Shadow_Fashion_AREA4
  | Light_Shadow_Fashion_AREA5 | Light_Shadow_Fashion_AREA6
  | DAL_NORMAL | DAL_HARD
  | Light_Shadow_Fashion_NORMAL | Light_Shadow_Fashion_HARD
  | FROSTFALL_FLEET_PREPARATION | ACEDEMY_FLEET_PREPARATION
  | NEONCITY_FLEET_PREPARATION | DAL_FLEET_PREPARATION
  | Light_Shadow_Fashion_PREPARATION
  deriving DecidableEq, BEq, Repr

/-- The (event, stage) → entrance button dictionary of
`CoalitionUI.coalition_get_entrance` (module/coalition/ui.py lines
199-249). -/
def entranceTable : List ((CoEvent × String) × CBtn) :=
  [ ((.c20230323, "tc1"), .FROSTFALL_TC1),
    ((.c20230323, "tc2"), .FROSTFALL_TC2),
    ((.c20230323, "tc3"), .FROSTFALL_TC3),
    ((.c20230323, "sp"), .FROSTFALL_SP),
    ((.c20230323, "ex"), .FROSTFALL_EX),
    ((.c20240627, "easy"), .ACADEMY_EASY),
    ((.c20240627, "normal"), .ACADEMY_NORMAL),
    ((.c20240627, "hard"), .ACADEMY_HARD),
    ((.c20240627, "sp"), .ACADEMY_SP),
    ((.c20240627, "ex"), .ACADEMY_EX),
    ((.c20250626, "easy"), .NEONCITY_EASY),
    ((.c20250626, "normal"), .NEONCITY_NORMAL),
    ((.c20250626, "hard"), .NEONCITY_HARD),
    ((.c20250626, "sp"), .NEONCITY_SP),
    ((.c20250626, "ex"), .NEONCITY_EX),
    ((.c20251120, "area1-normal"), .DAL_AREA1),
    ((.c20251120, "area2-normal"), .DAL_AREA2),
    ((.c20251120, "area3-normal"), .DAL_AREA3),
    ((.c20251120, "area4-normal"), .DAL_AREA4),
    ((.c20251120, "area5-normal"), .DAL_AREA5),
    ((.c20251120, "area6-normal"), .DAL_AREA6),
    ((.c20251120, "area1-hard"), .DAL_AREA1),
    ((.c20251120, "area2-hard"), .DAL_AREA2),
    ((.c20251120, "area3-hard"), .DAL_AREA3),
    ((.c20251120, "area4-hard"), .DAL_AREA4),
    ((.c20251120, "area5-hard"), .DAL_AREA5),
    ((.c20251120, "area6-hard"), .DAL_AREA6),
    ((.c20260122, "area1-normal"), .Light_Shadow_Fashion_AREA1),
    ((.c20260122, "area2-normal"), .Light_Shadow_Fashion_AREA2),
    ((.c20260122, "area3-normal"), .Light_Shadow_Fashion_AREA3),
    ((.c20260122, "area4-normal"), .Light_Shadow_Fashion_AREA4),
    ((.c20260122, "area5-normal"), .Light_Shadow_Fashion_AREA5),
    ((.c20260122, "area6-normal"), .Light_Shadow_Fashion_AREA6),
    ((.c20260122, "area1-hard"), .Light_Shadow_Fashion_AREA1),
    ((.c20260122, "area2-hard"), .Light_Shadow_Fashion_AREA2),
    ((.c20260122, "area3-hard"), .Light_Shadow_Fashion_AREA3),
    ((.c20260122, "area4-hard"), .Light_Shadow_Fashion_AREA4),
    ((.c20260122, "area5-hard"), .Light_Shadow_Fashion_AREA5),
    ((.c20260122, "area6-hard"), .Light_Shadow_Fashion_AREA6) ]

/-- Decidable equality for the `Except` results of the embedded
fallible methods. -/
instance {e a : Type} [DecidableEq e] [DecidableEq a] : DecidableEq (Except e a) :=
  fun x y =>
    match x, y with
    | .error u, .error v =>
      if h : u = v then .isTrue (h ▸ rfl)
      else .isFalse (fun hh => h (Except.error.inj hh))
    | .error _, .ok _ => .isFalse (fun hh => Except.noConfusion hh)
    | .ok _, .error _ => .isFalse (fun hh => Except.noConfusion hh)
    | .ok u, .ok v =>
      if h : u = v then .isTrue (h ▸ rfl)
      else .isFalse (fun hh => h (Except.ok.inj hh))

/-- `stage.lower()` on the ASCII stage identifiers. -/
def strToLower (s : String) : String := ⟨s.data.map Char.toLower⟩

/-- The errors the embedded coalition methods can raise. -/
inductive CErr
  | campaignName
  | scriptError
  | attributeError
  deriving DecidableEq, Repr

/-- `CoalitionUI.coalition_get_entrance` (lines 184-256): lowercases the
stage and looks it up; a missing key raises CampaignNameError. -/
def coalitionGetEntrance (ev : CoEvent) (stage : String) : Except CErr CBtn :=
  match entranceTable.lookup (ev, strToLower stage) with
  | some b => .ok b
  | none => .error .campaignName

/-- The (event, stage) → difficulty button dictionary of
`CoalitionUI.coalition_20251120_get_entrance_difficulty` (lines
258-307); it covers both the 20251120 and the 20260122 events. -/
def difficultyTable : List ((CoEvent × String) × CBtn) :=
  [ ((.c20251120, "area1-normal"), .DAL_NORMAL),
    ((.c20251120, "area2-normal"), .DAL_NORMAL),
    ((.c20251120, "area3-normal"), .DAL_NORMAL),
    ((.c20251120, "area4-normal"), .DAL_NORMAL),
    ((.c20251120, "area5-normal"), .DAL_NORMAL),
    ((.c20251120, "area6-normal"), .DAL_NORMAL),
    ((.c20251120, "area1-hard"), .DAL_HARD),
    ((.c20251120, "area2-hard"), .DAL_HARD),
    ((.c20251120, "area3-hard"), .DAL_HARD),
    ((.c20251120, "area4-hard"), .DAL_HARD),
    ((.c20251120, "area5-hard"), .DAL_HARD),
    ((.c20251120, "area6-hard"), .DAL_HARD),
    ((.c20260122, "area1-normal"), .Light_Shadow_Fashion_NORMAL),
    ((.c20260122, "area2-normal"), .Light_Shadow_Fashion_NORMAL),
    ((.c20260122, "area3-normal"), .Light_Shadow_Fashion_NORMAL),
    ((.c20260122, "area4-normal"), .Light_Shadow_Fashion_NORMAL),
    ((.c20260122, "area5-normal"), .Light_Shadow_Fashion_NORMAL),
    ((.c20260122, "area6-normal"), .Light_Shadow_Fashion_NORMAL),
    ((.c20260122, "area1-hard"), .Light_Shadow_Fashion_HARD),
    ((.c20260122, "area2-hard"), .Light_Shadow_Fashion_HARD),
    ((.c20260122, "area3-hard"), .Light_Shadow_Fashion_HARD),
    ((.c20260122, "area4-hard"), .Light_Shadow_Fashion_HARD),
    ((.c20260122, "area5-hard"), .Light_Shadow_Fashion_HARD),
    ((.c20260122, "area6-hard"), .Light_Shadow_Fashion_HARD) ]

/-- `CoalitionUI.coalition_20251120_get_entrance_difficulty`
(lines 258-307). -/
def coalition20251120GetEntranceDifficulty (ev : CoEvent) (stage : String) :
    Except CErr CBtn :=
  match difficultyTable.lookup (ev, strToLower stage) with
  | some b => .ok b
  | none => .error .campaignName

/-- `CoalitionUI.coalition_get_fleet_preparation` (lines 381-407). -/
def coalitionGetFleetPreparation (ev : CoEvent) : CBtn :=
  match ev with
  | .c20230323 => .FROSTFALL_FLEET_PREPARATION
  | .c20240627 => .ACEDEMY_FLEET_PREPARATION
  | .c20250626 => .NEONCITY_FLEET_PREPARATION
  | .c20251120 => .DAL_FLEET_PREPARATION
  | .c20260122 => .Light_Shadow_Fashion_PREPARATION

/-- `CoalitionUI.coalition_ensure_fleet` (lines 140-181): the fleet
switch is defined for four events; any other event — in particular
`coalition_20251120` — reaches the `else` branch and raises ScriptError.
The switch-set interaction itself is an external UI action and is not
modelled beyond success. -/
def coalitionEnsureFleet (ev : CoEvent) (_mode : String) : Except CErr Unit :=
  match ev with
  | .c20230323 => .ok ()
  | .c20240627 => .ok ()
  | .c20250626 => .ok ()
  | .c20260122 => .ok ()
  | .c20251120 => .error .scriptError

/-- `CoalitionUI.handle_fleet_preparation` (lines 409-436): lowercases
the stage, returns False early for the stages that need no fleet
switch, otherwise calls `coalition_ensure_fleet` and returns True. -/
def handleFleetPreparation (ev : CoEvent) (stage mode : String) :
    Except CErr Bool :=
  let stage := strToLower stage
  if ev = .c20230323 ∧ (stage = "tc1" ∨ stage = "sp") then .ok false
  else if ev = .c20240627 ∧ (stage = "easy" ∨ stage = "sp" ∨ stage = "ex") then .ok false
  else if ev = .c20250626 ∧ (stage = "easy" ∨ stage = "sp" ∨ stage = "ex") then .ok false
  else
    match coalitionEnsureFleet ev mode with
    | .ok _ => .ok true
    | .error e => .error e

/-- The data computed by the initialization prologue of
`CoalitionUI.enter_map` (lines 496-510), before the main loop. -/
structure EMData where
  button : CBtn
  buttonDifficulty : Option CBtn
  fleetPreparation : CBtn
  deriving DecidableEq, Repr

/-- The initialization prologue of `enter_map` (lines 496-510).  The
first difficulty branch (lines 499-502) computes a value for
`button_difficulty` keyed on `coalition_20251120`; the second branch
(lines 505-508) then unconditionally reassigns `button_difficulty`,
keyed on `coalition_20260122` — for that event it calls
`self.coalition_20260122_get_entrance_difficulty`, a method defined
nowhere in the class (the only difficulty lookup defined is
`coalition_20251120_get_entrance_difficulty`), so the attribute lookup
raises; for every other event it overwrites the first branch's value
with None. -/
def enterMapInit (ev : CoEvent) (stage : String) : Except CErr EMData :=
  match coalitionGetEntrance ev stage with
  | .error e => .error e
  | .ok _b1 =>
    match (if ev = .c20251120 then
            (coalition20251120GetEntranceDifficulty ev stage).map some
           else .ok none : Except CErr (Option CBtn)) with
    | .error e => .error e
    | .ok _bd1 =>
      match coalitionGetEntrance ev stage with
      | .error e => .error e
      | .ok button =>
        match (if ev = .c20260122 then .error .attributeError
               else .ok none : Except CErr (Option CBtn)) with
        | .error e => .error e
        | .ok bd =>
          .ok { button := button, buttonDifficulty := bd,
                fleetPreparation := coalitionGetFleetPreparation ev }

/-- One tick's observation inside the `enter_map` main loop: the
template-match results, inherited-handler results, and the per-button
Timer `reached()` values (the timers advance with real time, external
to the embedded loop, so their state is an oracle input per tick). -/
structure EMObs where
  fleetNotPrepared : Bool
  emptyFlagship : Bool
  emptyVanguard : Bool
  lsfFleetNotPrepared : Bool
  lsfEmptyFlagship : Bool
  lsfEmptyVanguard : Bool
  battlePreparation : Bool
  guildPopupCancel : Bool
  autoSearchContinue : Bool
  retirement : Bool
  combatLowEmotion : Bool
  urgentCommission : Bool
  storySkip : Bool
  combatAutomationConfirm : Bool
  campaignTimer : Bool
  inCoalition : Bool
  difficultyTimer : Bool
  inDalDifficulty : Bool
  inLsfDifficulty : Bool
  fleetTimer : Bool
  fleetPreparationAppear : Bool

/-- The three click counters of the `enter_map` loop (lines 517-520). -/
structure EMState where
  campaignClick : Nat
  difficultyClick : Nat
  fleetClick : Nat
  deriving DecidableEq, Repr

def emState0 : EMState := ⟨0, 0, 0⟩

/-- Which of the loop's click sites issued a click. -/
inductive CKind
  | entrance
  | difficulty
  | fleet
  deriving DecidableEq, Repr

/-- The result of one iteration of the `enter_map` main loop. -/
inductive EMTick
  | fatal
  | script
  | done
  | cont (st : EMState) (clicks : List (CKind × CBtn))
  deriving DecidableEq, Repr

/-- The four click sites at the end of the `enter_map` loop body
(lines 598-625): entrance (line 599), difficulty keyed on the
20251120 event (lines 606-611), difficulty keyed on the 20260122 event
(lines 612-617), and fleet preparation (lines 619-625), which first
runs `handle_fleet_preparation` (ScriptError propagates).  The Python
truthiness test `and button_difficulty` is `Option.isSome`. -/
def emClickSites (ev : CoEvent) (stage mode : String) (d : EMData) (st : EMState)
    (o : EMObs) : EMTick :=
  if o.campaignTimer && o.inCoalition then
    .cont { st with campaignClick := st.campaignClick + 1 } [(.entrance, d.button)]
  else if ev = .c20251120 ∧
      (o.difficultyTimer && o.inDalDifficulty && d.buttonDifficulty.isSome) = true then
    .cont { st with difficultyClick := st.difficultyClick + 1 }
      [(.difficulty, d.buttonDifficulty.getD d.button)]
  else if ev = .c20260122 ∧
      (o.difficultyTimer && o.inLsfDifficulty && d.buttonDifficulty.isSome) = true then
    .cont { st with difficultyClick := st.difficultyClick + 1 }
      [(.difficulty, d.buttonDifficulty.getD d.button)]
  else if o.fleetTimer && o.fleetPreparationAppear then
    match handleFleetPreparation ev stage mode with
    | .error _ => .script
    | .ok _ =>
      .cont { st with fleetClick := st.fleetClick + 1 } [(.fleet, d.fleetPreparation)]
  else .cont st []

/-- The interrupt-handler block of the `enter_map` loop body (lines
574-596): each handled interrupt restarts the loop without counting a
click. -/
def emInterrupts (ev : CoEvent) (stage mode : String) (d : EMData) (st : EMState)
    (o : EMObs) : EMTick :=
  if o.guildPopupCancel then .cont st []
  else if o.autoSearchContinue then .cont st []
  else if o.retirement then .cont st []
  else if o.combatLowEmotion then .cont st []
  else if o.urgentCommission then .cont st []
  else if o.storySkip then .cont st []
  else if o.combatAutomationConfirm then .cont st []
  else emClickSites ev stage mode d st o

/-- One iteration of the `enter_map` main loop (lines 523-625), in
source order: counter overflow checks (`> 5`, lines 531-545),
fleet-unprepared fatal checks (lines 548-567), arrival at
BATTLE_PREPARATION (line 570), then the interrupt handlers and the
click sites. -/
def emTick (ev : CoEvent) (stage mode : String) (d : EMData) (st : EMState)
    (o : EMObs) : EMTick :=
  if 5 < st.campaignClick then .fatal
  else if 5 < st.difficultyClick then .fatal
  else if 5 < st.fleetClick then .fatal
  else if o.fleetNotPrepared then .fatal
  else if o.emptyFlagship then .fatal
  else if o.emptyVanguard then .fatal
  else if o.lsfFleetNotPrepared then .fatal
  else if o.lsfEmptyFlagship then .fatal
  else if o.lsfEmptyVanguard then .fatal
  else if o.battlePreparation then .done
  else emInterrupts ev stage mode d st o

/-- Outcome of running the `enter_map` loop over a finite trace. -/
inductive EMOut
  | fatal
  | script
  | done
  | moreObs (st : EMState)
  | initErr (e : CErr)
  deriving DecidableEq, Repr

/-- Run the `enter_map` loop over a trace of tick observations,
collecting the clicks of the three click sites. -/
def runEM (ev : CoEvent) (stage mode : String) (d : EMData) :
    EMState → List EMObs → List (CKind × CBtn) × EMOut
  | st, [] => ([], .moreObs st)
  | st, o :: rest =>
    match emTick ev stage mode d st o with
    | .fatal => ([], .fatal)
    | .script => ([], .script)
    | .done => ([], .done)
    | .cont st' cs =>
      let r := runEM ev stage mode d st' rest
      (cs ++ r.1, r.2)

/-- `CoalitionUI.enter_map` (lines 477-625): the initialization
prologue followed by the main loop, starting with all click counters at
zero. -/
def enterMap (ev : CoEvent) (stage mode : String) (obs : List EMObs) :
    List (CKind × CBtn) × EMOut :=
  match enterMapInit ev stage with
  | .error e => ([], .initErr e)
  | .ok d => runEM ev stage mode d emState0 obs

/-- Clicks of a given site among the collected clicks. -/
def countKind (k : CKind) (cs : List (CKind × CBtn)) : Nat :=
  (cs.filter (fun c => c.1 == k)).length

/-- The tick observation used by the concrete runs: the agent sits on
the coalition page with the campaign click timer expired and nothing
else on screen. -/
def c1Obs : EMObs :=
  { fleetNotPrepared := false, emptyFlagship := false, emptyVanguard := false
    lsfFleetNotPrepared := false, lsfEmptyFlagship := false, lsfEmptyVanguard := false
    battlePreparation := false, guildPopupCancel := false, autoSearchContinue := false
    retirement := false, combatLowEmotion := false, urgentCommission := false
    storySkip := false, combatAutomationConfirm := false
    campaignTimer := true, inCoalition := true
    difficultyTimer := false, inDalDifficulty := false, inLsfDifficulty := false
    fleetTimer := false, fleetPreparationAppear := false }

/-- The tick observation on which the fleet-preparation screen has been
reached: the fleet timer has expired and the fleet-preparation button
appears, while nothing else is on screen. -/
def c9Obs : EMObs :=
  { c1Obs with campaignTimer := false, inCoalition := false
               fleetTimer := true, fleetPreparationAppear := true }

end Coalition

namespace Nav

open AlasUI

/-- Modelled from the spec: the Page node of the Page Graph (§3).  The
`Page` class lives in module/ui/page.py, which is not among the staged
sources; per the spec a Page has an identity, a check predicate (may be
null for synthetic pages — here an optional check-button id), and a
`links` mapping from directly reachable neighbor pages to click
targets.  The `parent` pointer is per-traversal state and is kept
outside this record, as a finite map. -/
structure GPage where
  id : Nat
  name : String
  checkButton : Option Nat
  links : List (Nat × Nat)
  deriving DecidableEq, Repr

/-- One tick's observation inside `ui_goto` / `ui_get_current_page`:
`appearBtn` gives the template-match result for each page-graph button
id (offset tolerance and per-page `interval=5` throttling folded into
the oracle), `ua`/`ua2` the frames consumed by the `ui_additional`
interrupt chain on this tick. -/
structure GObs where
  appearBtn : Nat → Bool
  ua : Obs
  ua2 : Obs

/-- `UI.ui_page_appear` (module/ui/ui.py lines 63-85) at the
page-graph level: the page's check button is visible.  The source's
special case for `page_main` (which tries the white-theme check button
first, then the classic one with a tighter offset) is abstracted into
the page's single check-button oracle. -/
def uiPageAppearP (p : GPage) (o : GObs) : Bool :=
  match p.checkButton with
  | some cb => o.appearBtn cb
  | none => false

/-- Does page `p` declare a link to the page with id `t`? -/
def linksTo (p : GPage) (t : Nat) : Bool :=
  (p.links.lookup t).isSome

/-- Modelled from the spec: breadth-first layer step of
`Page.init_connection` (§4.1: "sets a `parent` pointer on every page
that lies on a path to it — BFS/DFS over declared links, deterministic
tie-break by declaration order").  `asg` accumulates page → parent
assignments, `tree` the page ids already connected, `frontier` the ids
added in the previous layer. -/
def initConnAux (pages : List GPage) :
    Nat → List (Nat × Nat) → List Nat → List Nat → List (Nat × Nat)
  | 0, asg, _, _ => asg
  | fuel + 1, asg, tree, frontier =>
    let fresh := pages.filterMap (fun p =>
      if tree.contains p.id then none
      else match frontier.find? (fun t => linksTo p t) with
        | some t => some (p.id, t)
        | none => none)
    if fresh.isEmpty then asg
    else initConnAux pages fuel (asg ++ fresh) (tree ++ fresh.map Prod.fst)
      (fresh.map Prod.fst)

/-- Modelled from the spec: `Page.init_connection(destination)` (§3,
§4.1) — the parent pointers registered for one traversal session. -/
def initConnection (pages : List GPage) (dest : GPage) : Nat → Option Nat :=
  fun pid => (initConnAux pages pages.length [] [dest.id] [dest.id]).lookup pid

/-- Modelled from the spec: `Page.clear_connection()` (§4.1) — resets
every parent pointer to null. -/
def clearConnection : Nat → Option Nat := fun _ => none

/-- Result of the page scan inside the `ui_goto` loop. -/
inductive ScanRes
  | click (pid b : Nat)
  | keyErr
  deriving DecidableEq, Repr

/-- The page scan of the `ui_goto` loop (module/ui/ui.py lines
361-373): iterate the declared pages in order, skip pages with no
parent or no check button, and for the first page whose check button
appears, click `page.links[page.parent]` (a missing link key would
raise, `ScanRes.keyErr`). -/
def gotoScan : List GPage → (Nat → Option Nat) → GObs → Option ScanRes
  | [], _, _ => none
  | p :: rest, par, o =>
    match par p.id, p.checkButton with
    | some parentId, some cb =>
      if o.appearBtn cb then
        match p.links.lookup parentId with
        | some b => some (.click p.id b)
        | none => some .keyErr
      else gotoScan rest par o
    | _, _ => gotoScan rest par o

/-- How a `ui_goto` run ended. -/
inductive GotoOut
  | done
  | fatal
  | keyErr
  | outOfObs
  deriving DecidableEq, Repr

/-- The observable outcome of a `ui_goto` run: the navigation clicks
(page id, button id) issued by the page scan, the interrupt-chain
clicks, the final parent pointers, and how the run ended. -/
structure GotoRun where
  navClicks : List (Nat × Nat)
  intClicks : List Btn
  parents : Nat → Option Nat
  out : GotoOut

/-- The `while 1` loop of `UI.ui_goto` (module/ui/ui.py lines 347-382):
each tick first tests the destination's own predicate (line 357 — break
and `Page.clear_connection()` on arrival), then runs the page scan, and
only when no page was recognized falls through to `ui_additional`
(line 378), whose RequestHumanTakeover propagates out of `ui_goto`
without reaching the `clear_connection` call at line 382. -/
def uiGotoLoop (pages : List GPage) (dest : GPage) (getShip : Bool)
    (par : Nat → Option Nat) : Nat → List GObs → GotoRun
  | _, [] => ⟨[], [], par, .outOfObs⟩
  | opsi, o :: rest =>
    if uiPageAppearP dest o then ⟨[], [], clearConnection, .done⟩
    else
      match gotoScan pages par o with
      | some (.click pid b) =>
        let r := uiGotoLoop pages dest getShip par opsi rest
        ⟨(pid, b) :: r.navClicks, r.intClicks, r.parents, r.out⟩
      | some .keyErr => ⟨[], [], par, .keyErr⟩
      | none =>
        match uiAdditional getShip opsi o.ua o.ua2 with
        | .error _ => ⟨[], [], par, .fatal⟩
        | .ok (cs, _, opsi') =>
          let r := uiGotoLoop pages dest getShip par opsi' rest
          ⟨r.navClicks, cs ++ r.intClicks, r.parents, r.out⟩

/-- `UI.ui_goto` (lines 330-382): `Page.init_connection(destination)`
followed by the traversal loop. -/
def uiGoto (pages : List GPage) (dest : GPage) (getShip : Bool) (opsi : Nat)
    (obs : List GObs) : GotoRun :=
  uiGotoLoop pages dest getShip (initConnection pages dest) opsi obs

/-- The configuration fields dumped by `ui_get_current_page` before it
raises GamePageUnknownError (module/ui/ui.py lines 321-323). -/
structure AlasCfg where
  screenshotMethod : String
  controlMethod : String
  server : String
  deriving DecidableEq, Repr

/-- The diagnostic log entries emitted on the unknown-page exit. -/
inductive LogEntry
  | screenshotMethod (s : String)
  | controlMethod (s : String)
  | server (s : String)
  | supportedPages (names : List String)
  deriving DecidableEq, Repr

/-- One tick's observation inside `ui_get_current_page`: the overall
10-second timeout state, the page-graph button matches, the
`appear_then_click` results of the three go-to-main attempts, the
interrupt-chain frames, and whether the game app is running. -/
structure CObs where
  timeoutReached : Bool
  appearBtn : Nat → Bool
  gotoMain : Bool
  gotoMainWhite : Bool
  rpgHome : Bool
  ua : Obs
  ua2 : Obs
  appRunning : Bool

/-- How `ui_get_current_page` ended. -/
inductive CurOut
  | page (id : Nat)
  | unknownPage
  | notRunning
  | takeover
  | outOfObs
  deriving DecidableEq, Repr

/-- The `Page.iter_pages` scan inside `ui_get_current_page` (lines
287-293): first declared page whose check button is visible; pages with
no check button are skipped. -/
def findPage : List GPage → (Nat → Bool) → Option Nat
  | [], _ => none
  | p :: rest, ap =>
    match p.checkButton with
    | none => findPage rest ap
    | some cb => if ap cb then some p.id else findPage rest ap

/-- The diagnostic dump preceding GamePageUnknownError (lines
320-327): screenshot method, control method, server, and the list of
known page identifiers. -/
def diagLog (cfg : AlasCfg) (pages : List GPage) : List LogEntry :=
  [.screenshotMethod cfg.screenshotMethod, .controlMethod cfg.controlMethod,
   .server cfg.server, .supportedPages (pages.map GPage.name)]

/-- `UI.ui_get_current_page` (module/ui/ui.py lines 240-328):
per tick — timeout check (break to the diagnostic dump and
GamePageUnknownError, lines 283-284 and 319-328), page scan (return the
recognized page), the three go-to-main attempts, the interrupt chain
(RequestHumanTakeover propagates), and the run-once `app_check`
(GameNotRunningError when the game is not running; `checked` is the
run-once state).  The timeout and goto-main interval timers are oracle
inputs; their `reset()` calls act on the external clock. -/
def runCur (cfg : AlasCfg) (pages : List GPage) :
    Bool → Nat → List CObs → List LogEntry × CurOut
  | _, _, [] => ([], .outOfObs)
  | checked, opsi, o :: rest =>
    if o.timeoutReached then (diagLog cfg pages, .unknownPage)
    else
      match findPage pages o.appearBtn with
      | some pid => ([], .page pid)
      | none =>
        if o.gotoMain then runCur cfg pages checked opsi rest
        else if o.gotoMainWhite then runCur cfg pages checked opsi rest
        else if o.rpgHome then runCur cfg pages checked opsi rest
        else
          match uiAdditional true opsi o.ua o.ua2 with
          | .error _ => ([], .takeover)
          | .ok (_, true, opsi') => runCur cfg pages checked opsi' rest
          | .ok (_, false, opsi') =>
            if !checked && !o.appRunning then ([], .notRunning)
            else runCur cfg pages true opsi' rest

/-- Result of `UI.ui_ensure` (module/ui/ui.py lines 384-406). -/
inductive EnsureRes
  | errOut (out : CurOut)
  | already
  | moved (r : GotoRun)

/-- `UI.ui_ensure` (lines 384-406): identify the current page with
`ui_get_current_page`; if it equals the destination, return False
without invoking `ui_goto`; otherwise perform `ui_goto`. -/
def uiEnsure (cfg : AlasCfg) (pages : List GPage) (checked : Bool) (opsi : Nat)
    (cobs : List CObs) (dest : GPage) (gobs : List GObs) : EnsureRes :=
  match (runCur cfg pages checked opsi cobs).2 with
  | .page pid =>
    if pid = dest.id then .already
    else .moved (uiGoto pages dest true opsi gobs)
  | out => .errOut out

/-- The spec's three-page scenario graph: Main → Event → StageList. -/
def mainPage : GPage := ⟨0, "page_main", some 10, [(1, 100)]⟩

def eventPage : GPage := ⟨1, "page_event", some 11, [(0, 101), (2, 102)]⟩

def stagePage : GPage := ⟨2, "page_stage", some 12, [(1, 103)]⟩

def c2Pages : List GPage := [mainPage, eventPage, stagePage]

/-- A tick on which no page is recognized and the OpSi
reset-fleet-preparation popup is on screen. -/
def c2Obs : GObs :=
  ⟨fun _ => false, obsOf [.RESET_FLEET_PREPARATION], obsOf [.RESET_FLEET_PREPARATION]⟩

end Nav

namespace Click

/-- One tick inside the `ui_click` loop (module/ui/ui.py lines
183-211): the time of the tick's screenshot, the result of
`ui_process_check_button(check_button)` (the arrival condition), the
appear-condition of the click trigger, and the `additional()` result. -/
structure UcTick where
  now : Nat
  target : Bool
  appearB : Bool
  addl : Bool
  deriving DecidableEq, Repr

/-- The timer state of one `ui_click` call: the confirmation timer's
last start/reset time and the time of the last click.  Modelled from
the spec: the `Timer` class (module/base/timer.py is not among the
staged sources) per §4.4 — a confirmation timer of length
`confirmDelay` that is reset whenever the condition fails and has
elapsed once `confirmDelay` time has passed since its last reset, and a
retry timer that allows a click once `retryInterval` has elapsed since
the last click (immediately when nothing was clicked yet). -/
structure UcState where
  confLast : Nat
  lastClick : Option Nat
  deriving DecidableEq, Repr

/-- Modelled from the spec: the click retry timer (§4.4, "If
`retryInterval` has elapsed since the last click"). -/
def clickReady (retryWait : Nat) (st : UcState) (now : Nat) : Bool :=
  match st.lastClick with
  | none => true
  | some t => retryWait ≤ now - t

/-- How a `ui_click` run ended over a finite trace. -/
inductive UcOut
  | success
  | outOfTicks (st : UcState)
  deriving DecidableEq, Repr

/-- Source line 179: `confirm_wait = confirm_wait if additional is not
None else 0` — the confirmation window is zeroed whenever no
`additional` handler is supplied. -/
def effectiveConfirmWait (addPresent : Bool) (confirmWait : Nat) : Nat :=
  if addPresent then confirmWait else 0

/-- The `while 1` loop of `UI.ui_click` (module/ui/ui.py lines
183-211): each tick first tests the arrival condition — success when it
holds and the confirmation timer has elapsed, a confirmation-timer
reset when it fails — then clicks if the retry timer allows and the
trigger condition holds, then gives `additional` its turn.  Returns the
click times and the outcome. -/
def uiClickRun (addPresent : Bool) (confirmWait retryWait : Nat) :
    UcState → List UcTick → List Nat × UcOut
  | st, [] => ([], .outOfTicks st)
  | st, k :: rest =>
    if k.target &&
        decide (effectiveConfirmWait addPresent confirmWait ≤ k.now - st.confLast) then
      ([], .success)
    else
      let st1 := if k.target then st else { st with confLast := k.now }
      if clickReady retryWait st1 k.now && k.appearB then
        let r := uiClickRun addPresent confirmWait retryWait
          { st1 with lastClick := some k.now } rest
        (k.now :: r.1, r.2)
      else
        uiClickRun addPresent confirmWait retryWait st1 rest

/-- A tick on which the arrival condition is absent and nothing else
happens. -/
def falseTick (t : Nat) : UcTick := ⟨t, false, false, false⟩

/-- A tick on which the arrival condition holds. -/
def trueTick (t : Nat) : UcTick := ⟨t, true, false, false⟩

/-- `n` quiet ticks at times `a, a+1, …, a+n-1`. -/
def falseBlock : Nat → Nat → List UcTick
  | _, 0 => []
  | a, n + 1 => falseTick a :: falseBlock (a + 1) n

/-- `n` holding ticks at times `a, a+1, …, a+n-1`. -/
def trueBlock : Nat → Nat → List UcTick
  | _, 0 => []
  | a, n + 1 => trueTick a :: trueBlock (a + 1) n

/-- The scenario trace of the confirmation-stability property: quiet
for `s` ticks, then the arrival condition holds for `d` consecutive
ticks (unit tick spacing). -/
def holdTrace (s d : Nat) : List UcTick := falseBlock 0 s ++ trueBlock s d

/-- The trace of the counterexample: quiet at time 0, the arrival
condition holds for the single tick at time 1, quiet again at time 2 —
a flicker much shorter than the confirmation window. -/
def c3Flicker : List UcTick :=
  [⟨0, false, false, false⟩, ⟨1, true, false, false⟩, ⟨2, false, false, false⟩]

end Click

namespace AlasUI

/-- A rule whose action always reports handled is fallthrough-silent. -/
theorem silent_of_actTrue (r : Rule) (h : ∀ o o2, (r.act o o2).2 = true) :
    r.silent := by
  intro o o2 hf
  rw [h] at hf
  cases hf

theorem condGotoMain_silent (g : Btn) : (condGotoMain g).silent := by
  intro o o2 h
  by_cases hc : o.appear .GOTO_MAIN <;> simp [condGotoMain, hc] at h ⊢

theorem playerRule_silent : playerRule.silent := by
  intro o o2 h
  by_cases h1 : o.appear .GOTO_MAIN <;> by_cases h2 : o.appear .BACK_ARROW <;>
    simp [playerRule, h1, h2] at h ⊢

theorem withdrawRule_silent : withdrawRule.silent := by
  intro o o2 h
  by_cases hw : o2.appear .WITHDRAW <;> simp [withdrawRule, hw] at h ⊢

theorem idleRule_silent :
    Rule.silent ⟨fun o => (handleIdlePage o).2, fun o _ => handleIdlePage o⟩ := by
  intro o o2 h
  by_cases h1 : o.idleTimerReached <;> by_cases h2 : o.idleMatch1 <;>
    by_cases h3 : o.idleMatch2 <;> by_cases h4 : o.idleMatch3 <;>
    simp [handleIdlePage, h1, h2, h3, h4] at h ⊢

/-- Every rule of the `ui_additional` chain is fallthrough-silent: a
rule whose composite guard fails half-way issues no click. -/
theorem fullRules_silent (getShip : Bool) : ∀ r ∈ fullRules getShip, r.silent := by
  intro r hr
  simp only [fullRules, osRules, uiAdditionalRest, uiPageMainPopupsRules,
    List.mem_append, List.mem_cons, List.not_mem_nil, or_false, or_assoc] at hr
  rcases hr with rfl|rfl|rfl|rfl|rfl|rfl|rfl|rfl|rfl|rfl|rfl|rfl|rfl|rfl|rfl|rfl|rfl|rfl|rfl|
    rfl|rfl|rfl|rfl|rfl|rfl|rfl|rfl|rfl|rfl|rfl|rfl|rfl|rfl|rfl|rfl|rfl|rfl|rfl <;>
    first
      | exact silent_of_actTrue _ (fun o o2 => rfl)
      | exact condGotoMain_silent _
      | exact playerRule_silent
      | exact withdrawRule_silent
      | exact idleRule_silent

/-- When the chain reports nothing handled, it issued no click and no
rule fired. -/
theorem runChain_false_spec (rs : List Rule) (o o2 : Obs)
    (hs : ∀ r ∈ rs, r.silent) (h : (runChain rs o o2).2 = false) :
    (runChain rs o o2).1 = [] ∧ ∀ r ∈ rs, ¬ r.fires o o2 := by
  induction rs with
  | nil =>
    refine ⟨rfl, ?_⟩
    intro r hr
    exact absurd hr (List.not_mem_nil r)
  | cons r rs ih =>
    by_cases hg : r.guard o
    · by_cases ha : (r.act o o2).2
      · simp [runChain, hg, ha] at h
      · have hsil : (r.act o o2).1 = [] :=
          hs r (List.mem_cons_self r rs) o o2 (by simpa using ha)
        have h' : (runChain rs o o2).2 = false := by
          simpa [runChain, hg, ha] using h
        obtain ⟨hcs, hnf⟩ := ih (fun r' hr' => hs r' (List.mem_cons_of_mem _ hr')) h'
        refine ⟨by simp [runChain, hg, ha, hsil, hcs], ?_⟩
        intro r' hr'
        rcases List.mem_cons.mp hr' with rfl | hr'
        · intro hf
          exact absurd hf.2 (by simpa using ha)
        · exact hnf r' hr'
    · have h' : (runChain rs o o2).2 = false := by simpa [runChain, hg] using h
      obtain ⟨hcs, hnf⟩ := ih (fun r' hr' => hs r' (List.mem_cons_of_mem _ hr')) h'
      refine ⟨by simpa [runChain, hg] using hcs, ?_⟩
      intro r' hr'
      rcases List.mem_cons.mp hr' with rfl | hr'
      · intro hf
        exact absurd hf.1 hg
      · exact hnf r' hr'

/-- When the chain reports handled, its output is exactly the clicks of
the first rule that fired, and no earlier rule fired. -/
theorem runChain_true_spec (rs : List Rule) (o o2 : Obs)
    (hs : ∀ r ∈ rs, r.silent) (h : (runChain rs o o2).2 = true) :
    ∃ k, ∃ hk : k < rs.length,
      (rs.get ⟨k, hk⟩).fires o o2 ∧
      (runChain rs o o2).1 = ((rs.get ⟨k, hk⟩).act o o2).1 ∧
      ∀ m, ∀ hm : m < rs.length, m < k → ¬ (rs.get ⟨m, hm⟩).fires o o2 := by
  induction rs with
  | nil => simp [runChain] at h
  | cons r rs ih =>
    by_cases hg : r.guard o
    · by_cases ha : (r.act o o2).2
      · refine ⟨0, by simp, ⟨hg, ha⟩, by simp [runChain, hg, ha], ?_⟩
        intro m hm hlt
        exact absurd hlt (Nat.not_lt_zero m)
      · have hsil : (r.act o o2).1 = [] :=
          hs r (List.mem_cons_self r rs) o o2 (by simpa using ha)
        have h' : (runChain rs o o2).2 = true := by
          simpa [runChain, hg, ha] using h
        obtain ⟨k, hk, hf, hcs, hmin⟩ :=
          ih (fun r' hr' => hs r' (List.mem_cons_of_mem _ hr')) h'
        refine ⟨k + 1, by simpa using Nat.succ_lt_succ hk, by simpa using hf, ?_, ?_⟩
        · simpa [runChain, hg, ha, hsil] using hcs
        · intro m hm hlt
          match m with
          | 0 =>
            intro hf0
            exact absurd (by simpa using hf0.2) ha
          | Nat.succ m' =>
            have hm' : m' < rs.length := by simpa using hm
            have := hmin m' hm' (by omega)
            simpa using this
    · have h' : (runChain rs o o2).2 = true := by simpa [runChain, hg] using h
      obtain ⟨k, hk, hf, hcs, hmin⟩ :=
        ih (fun r' hr' => hs r' (List.mem_cons_of_mem _ hr')) h'
      refine ⟨k + 1, by simpa using Nat.succ_lt_succ hk, by simpa using hf, ?_, ?_⟩
      · simpa [runChain, hg] using hcs
      · intro m hm hlt
        match m with
        | 0 =>
          intro hf0
          exact absurd hf0.1 hg
        | Nat.succ m' =>
          have hm' : m' < rs.length := by simpa using hm
          have := hmin m' hm' (by omega)
          simpa using this

/-- Below the OpSi raise threshold, `ui_additional` computes exactly the
fallthrough chain over the full ordered rule list. -/
theorem uiAdditional_eq_runChain (getShip : Bool) (n : Nat) (o o2 : Obs)
    (h5 : n < 5) :
    ∃ n', uiAdditional getShip n o o2 =
      .ok ((runChain (fullRules getShip) o o2).1,
        (runChain (fullRules getShip) o o2).2, n') := by
  have h5' : ¬ 5 ≤ n := by omega
  by_cases h1 : o.appear .RESET_TICKET_POPUP
  · exact ⟨n, by simp [uiAdditional, uiPageOsPopups, fullRules, osRules, runChain,
      atc, h5', h1]⟩
  · by_cases h2 : o.appear .RESET_FLEET_PREPARATION
    · exact ⟨n + 1, by simp [uiAdditional, uiPageOsPopups, fullRules, osRules, runChain,
        atc, h5', h1, h2]⟩
    · by_cases h3 : o.appear .EXCHANGE_CHECK
      · exact ⟨n, by simp [uiAdditional, uiPageOsPopups, fullRules, osRules, runChain,
          atc, seenClick, h5', h1, h2, h3]⟩
      · exact ⟨n, by simp [uiAdditional, uiPageOsPopups, fullRules, osRules, runChain,
          atc, seenClick, h5', h1, h2, h3]⟩

/-- Claim C4, counterexample.  On `c4Frame1` the predicate of the
earlier EVENT_LIST_CHECK rule (module/ui/ui.py line 538) matches and the
predicate of the later MONTHLY_PASS_NOTICE rule (line 543) matches, yet
the chain issues the later rule's click, MONTHLY_PASS_NOTICE — not only
the first matching rule's action.  On `c4Frame2` the EVENT_LIST_CHECK
predicate matches yet the chain returns `false`, contradicting "returns
false only when no rule's predicate matched". -/
theorem ui_additional_not_first_match :
    ((condGotoMain .EVENT_LIST_CHECK).guard c4Frame1 = true
      ∧ (atc .MONTHLY_PASS_NOTICE).guard c4Frame1 = true
      ∧ uiAdditional true 0 c4Frame1 c4Frame1 =
          .ok ([Btn.MONTHLY_PASS_NOTICE], true, 0))
    ∧ ((condGotoMain .EVENT_LIST_CHECK).guard c4Frame2 = true
      ∧ uiAdditional true 0 c4Frame2 c4Frame2 = .ok ([], false, 0)) :=
  ⟨⟨rfl, rfl, rfl⟩, rfl, rfl⟩

/-- Claim C4, amended.  On a single tick of `ui_additional` (below the
OpSi raise threshold), the chain executes the action of the first rule
that FIRES — whose predicate matches and whose action reports handled —
and returns true immediately without evaluating later rules; it returns
false exactly when no rule fires (which can happen even though some
rule's outer predicate matched, when that composite rule's secondary
condition failed), and then it issues no click at all. -/
theorem ui_additional_first_fire (getShip : Bool) (n : Nat) (o o2 : Obs)
    (h5 : n < 5) :
    ∃ cs b n', uiAdditional getShip n o o2 = .ok (cs, b, n') ∧
      (b = false → cs = [] ∧ ∀ r ∈ fullRules getShip, ¬ r.fires o o2) ∧
      (b = true → ∃ k, ∃ hk : k < (fullRules getShip).length,
        ((fullRules getShip).get ⟨k, hk⟩).fires o o2 ∧
        cs = (((fullRules getShip).get ⟨k, hk⟩).act o o2).1 ∧
        ∀ m, ∀ hm : m < (fullRules getShip).length, m < k →
          ¬ ((fullRules getShip).get ⟨m, hm⟩).fires o o2) := by
  obtain ⟨n', heq⟩ := uiAdditional_eq_runChain getShip n o o2 h5
  refine ⟨_, _, n', heq, fun hb => ?_, fun hb => ?_⟩
  · exact runChain_false_spec _ o o2 (fullRules_silent getShip) hb
  · obtain ⟨k, hk, hf, hcs, hmin⟩ :=
      runChain_true_spec _ o o2 (fullRules_silent getShip) hb
    exact ⟨k, hk, hf, hcs, hmin⟩

/-- Witness for `ui_additional_first_fire` at the concrete frame
`c4Frame1` with counter 0. -/
theorem ui_additional_first_fire_witness :
    ∃ cs b n', uiAdditional true 0 c4Frame1 c4Frame1 = .ok (cs, b, n') ∧
      (b = false → cs = [] ∧ ∀ r ∈ fullRules true, ¬ r.fires c4Frame1 c4Frame1) ∧
      (b = true → ∃ k, ∃ hk : k < (fullRules true).length,
        ((fullRules true).get ⟨k, hk⟩).fires c4Frame1 c4Frame1 ∧
        cs = (((fullRules true).get ⟨k, hk⟩).act c4Frame1 c4Frame1).1 ∧
        ∀ m, ∀ hm : m < (fullRules true).length, m < k →
          ¬ ((fullRules true).get ⟨m, hm⟩).fires c4Frame1 c4Frame1) :=
  ui_additional_first_fire true 0 c4Frame1 c4Frame1 (by decide)

/-- Exact click count of the OpSi RESET_FLEET_PREPARATION counter: over
any trace on which the reset-fleet popup keeps appearing (and the
reset-ticket popup does not), starting from counter `n ≤ 5`, exactly
`min length (5 - n)` clicks are issued and RequestHumanTakeover is
reached exactly when the trace outlives that budget. -/
theorem runOsLoop_spec (obs : List Obs) : ∀ n, n ≤ 5 →
    (∀ o ∈ obs, o.appear .RESET_TICKET_POPUP = false ∧
      o.appear .RESET_FLEET_PREPARATION = true) →
    (runOsLoop n obs).1 = min obs.length (5 - n) ∧
    ((runOsLoop n obs).2 = true ↔ 5 - n < obs.length) := by
  induction obs with
  | nil =>
    intro n _ _
    simp [runOsLoop]
  | cons o rest ih =>
    intro n hn ho
    by_cases h5 : 5 ≤ n
    · have hn5 : n = 5 := le_antisymm hn h5
      subst hn5
      simp [runOsLoop, uiPageOsPopups]
    · have hticket := (ho o (List.mem_cons_self o rest)).1
      have hfleet := (ho o (List.mem_cons_self o rest)).2
      have hn1 : n + 1 ≤ 5 := by omega
      obtain ⟨ih1, ih2⟩ := ih (n + 1) hn1 (fun o' ho' => ho o' (List.mem_cons_of_mem _ ho'))
      constructor
      · simp only [runOsLoop, uiPageOsPopups, if_neg h5, hticket, hfleet]
        simp only [Bool.false_eq_true, if_false, if_true, List.count_cons,
          List.count_nil, beq_self_eq_true, List.length_cons, ih1]
        omega
      · simp only [runOsLoop, uiPageOsPopups, if_neg h5, hticket, hfleet]
        simp only [Bool.false_eq_true, if_false, if_true]
        rw [ih2]
        constructor <;> intro h <;> simp at h ⊢ <;> omega

end AlasUI

namespace Coalition

theorem countKind_nil (k : CKind) : countKind k [] = 0 := rfl

theorem countKind_entrance_pair (b : CBtn) :
    countKind .entrance [(.entrance, b)] = 1 := rfl

theorem countKind_difficulty_pair (b : CBtn) :
    countKind .entrance [(.difficulty, b)] = 0 := rfl

theorem countKind_fleet_pair (b : CBtn) :
    countKind .entrance [(.fleet, b)] = 0 := rfl

/-- A continuing click-site step emits at most one entrance click and
advances the campaign counter by exactly that number. -/
theorem emClickSites_cont_campaign (ev : CoEvent) (stage mode : String)
    (d : EMData) (st : EMState) (o : EMObs) (st' : EMState)
    (cs : List (CKind × CBtn))
    (h : emClickSites ev stage mode d st o = .cont st' cs) :
    countKind .entrance cs ≤ 1 ∧
    st'.campaignClick = st.campaignClick + countKind .entrance cs := by
  unfold emClickSites at h
  repeat' split at h
  all_goals
    first
      | (cases h
         refine ⟨?_, ?_⟩ <;>
           simp [countKind_nil, countKind_entrance_pair, countKind_difficulty_pair,
             countKind_fleet_pair])
      | cases h

/-- The interrupt block preserves the campaign-click accounting. -/
theorem emInterrupts_cont_campaign (ev : CoEvent) (stage mode : String)
    (d : EMData) (st : EMState) (o : EMObs) (st' : EMState)
    (cs : List (CKind × CBtn))
    (h : emInterrupts ev stage mode d st o = .cont st' cs) :
    countKind .entrance cs ≤ 1 ∧
    st'.campaignClick = st.campaignClick + countKind .entrance cs := by
  unfold emInterrupts at h
  repeat' split at h
  all_goals
    first
      | exact emClickSites_cont_campaign ev stage mode d st o st' cs h
      | (cases h
         refine ⟨?_, ?_⟩ <;> simp [countKind_nil])

/-- A continuing loop iteration presupposes the campaign counter had not
overflowed, emits at most one entrance click, and advances the counter
by exactly the number of entrance clicks it emits. -/
theorem emTick_cont_campaign (ev : CoEvent) (stage mode : String) (d : EMData)
    (st : EMState) (o : EMObs) (st' : EMState) (cs : List (CKind × CBtn))
    (h : emTick ev stage mode d st o = .cont st' cs) :
    st.campaignClick ≤ 5 ∧ countKind .entrance cs ≤ 1 ∧
    st'.campaignClick = st.campaignClick + countKind .entrance cs := by
  unfold emTick at h
  repeat' split at h
  all_goals
    first
      | cases h
      | (obtain ⟨h1, h2⟩ := emInterrupts_cont_campaign ev stage mode d st o st' cs h
         exact ⟨by omega, h1, h2⟩)

/-- The entrance button is clicked at most `6 - campaignClick` more
times over any continuation of the loop. -/
theorem runEM_entrance_bound (ev : CoEvent) (stage mode : String) (d : EMData) :
    ∀ (obs : List EMObs) (st : EMState),
      countKind .entrance (runEM ev stage mode d st obs).1 ≤ 6 - st.campaignClick := by
  intro obs
  induction obs with
  | nil =>
    intro st
    simp [runEM, countKind]
  | cons o rest ih =>
    intro st
    unfold runEM
    cases h : emTick ev stage mode d st o with
    | fatal => simp [countKind]
    | script => simp [countKind]
    | done => simp [countKind]
    | cont st' cs =>
      obtain ⟨h5, hck, heq⟩ := emTick_cont_campaign ev stage mode d st o st' cs h
      have := ih st'
      simp only [countKind, List.filter_append, List.length_append] at *
      omega

theorem countKindD_nil : countKind .difficulty ([] : List (CKind × CBtn)) = 0 := rfl

theorem countKindD_entrance_pair (b : CBtn) :
    countKind .difficulty [(.entrance, b)] = 0 := rfl

theorem countKindD_fleet_pair (b : CBtn) :
    countKind .difficulty [(.fleet, b)] = 0 := rfl

/-- With no difficulty button, the click sites never issue a
difficulty click: the two difficulty branches are gated on
`button_difficulty` being truthy. -/
theorem emClickSites_no_difficulty (ev : CoEvent) (stage mode : String)
    (d : EMData) (st : EMState) (o : EMObs) (st' : EMState)
    (cs : List (CKind × CBtn)) (hd : d.buttonDifficulty = none)
    (h : emClickSites ev stage mode d st o = .cont st' cs) :
    countKind .difficulty cs = 0 := by
  unfold emClickSites at h
  repeat' split at h
  all_goals
    first
      | (cases h
         simp [countKindD_nil, countKindD_entrance_pair, countKindD_fleet_pair])
      | (rename_i hg
         exact absurd hg.2 (by simp [hd]))
      | cases h

/-- The interrupt block never issues a difficulty click. -/
theorem emInterrupts_no_difficulty (ev : CoEvent) (stage mode : String)
    (d : EMData) (st : EMState) (o : EMObs) (st' : EMState)
    (cs : List (CKind × CBtn)) (hd : d.buttonDifficulty = none)
    (h : emInterrupts ev stage mode d st o = .cont st' cs) :
    countKind .difficulty cs = 0 := by
  unfold emInterrupts at h
  repeat' split at h
  all_goals
    first
      | exact emClickSites_no_difficulty ev stage mode d st o st' cs hd h
      | (cases h
         simp [countKindD_nil])

/-- A full loop iteration never issues a difficulty click when the
difficulty button is None. -/
theorem emTick_no_difficulty (ev : CoEvent) (stage mode : String)
    (d : EMData) (st : EMState) (o : EMObs) (st' : EMState)
    (cs : List (CKind × CBtn)) (hd : d.buttonDifficulty = none)
    (h : emTick ev stage mode d st o = .cont st' cs) :
    countKind .difficulty cs = 0 := by
  unfold emTick at h
  repeat' split at h
  all_goals
    first
      | cases h
      | exact emInterrupts_no_difficulty ev stage mode d st o st' cs hd h

/-- Over any trace, a run with `buttonDifficulty = none` issues zero
difficulty clicks. -/
theorem runEM_no_difficulty (ev : CoEvent) (stage mode : String) (d : EMData)
    (hd : d.buttonDifficulty = none) :
    ∀ (obs : List EMObs) (st : EMState),
      countKind .difficulty (runEM ev stage mode d st obs).1 = 0 := by
  intro obs
  induction obs with
  | nil =>
    intro st
    simp [runEM, countKind]
  | cons o rest ih =>
    intro st
    unfold runEM
    cases h : emTick ev stage mode d st o with
    | fatal => simp [countKind]
    | script => simp [countKind]
    | done => simp [countKind]
    | cont st' cs =>
      have h0 := emTick_no_difficulty ev stage mode d st o st' cs hd h
      have := ih st'
      simp only [countKind, List.filter_append, List.length_append] at *
      omega

end Coalition

namespace Nav

open AlasUI

/-- The traversal loop clears the parent pointers exactly on the
arrival (`break`) path and leaves them untouched on every other exit:
there is no `try/finally` around the loop in the source. -/
theorem uiGotoLoop_parents (pages : List GPage) (dest : GPage) (getShip : Bool)
    (par : Nat → Option Nat) :
    ∀ (obs : List GObs) (opsi : Nat),
      ((uiGotoLoop pages dest getShip par opsi obs).out = .done →
        (uiGotoLoop pages dest getShip par opsi obs).parents = clearConnection) ∧
      ((uiGotoLoop pages dest getShip par opsi obs).out ≠ .done →
        (uiGotoLoop pages dest getShip par opsi obs).parents = par) := by
  intro obs
  induction obs with
  | nil =>
    intro opsi
    constructor
    · intro h
      simp [uiGotoLoop] at h
    · intro _
      rfl
  | cons o rest ih =>
    intro opsi
    by_cases hd : uiPageAppearP dest o
    · constructor
      · intro _
        simp [uiGotoLoop, hd]
      · intro h
        simp [uiGotoLoop, hd] at h
    · cases hscan : gotoScan pages par o with
      | some sr =>
        cases sr with
        | click pid b =>
          have he : uiGotoLoop pages dest getShip par opsi (o :: rest) =
              ⟨(pid, b) :: (uiGotoLoop pages dest getShip par opsi rest).navClicks,
               (uiGotoLoop pages dest getShip par opsi rest).intClicks,
               (uiGotoLoop pages dest getShip par opsi rest).parents,
               (uiGotoLoop pages dest getShip par opsi rest).out⟩ := by
            simp [uiGotoLoop, hd, hscan]
          rw [he]
          exact ih opsi
        | keyErr =>
          constructor
          · intro h
            simp [uiGotoLoop, hd, hscan] at h
          · intro _
            simp [uiGotoLoop, hd, hscan]
      | none =>
        cases hu : uiAdditional getShip opsi o.ua o.ua2 with
        | error e =>
          constructor
          · intro h
            simp [uiGotoLoop, hd, hscan, hu] at h
          · intro _
            simp [uiGotoLoop, hd, hscan, hu]
        | ok t =>
          obtain ⟨cs, b, opsi'⟩ := t
          have he : uiGotoLoop pages dest getShip par opsi (o :: rest) =
              ⟨(uiGotoLoop pages dest getShip par opsi' rest).navClicks,
               cs ++ (uiGotoLoop pages dest getShip par opsi' rest).intClicks,
               (uiGotoLoop pages dest getShip par opsi' rest).parents,
               (uiGotoLoop pages dest getShip par opsi' rest).out⟩ := by
            simp [uiGotoLoop, hd, hscan, hu]
          rw [he]
          exact ih opsi'

/-- Whenever `ui_get_current_page` ends in GamePageUnknownError, the
log it produced is exactly the diagnostic dump. -/
theorem runCur_unknown_log (cfg : AlasCfg) (pages : List GPage) :
    ∀ (obs : List CObs) (checked : Bool) (opsi : Nat) (log : List LogEntry),
      runCur cfg pages checked opsi obs = (log, .unknownPage) →
      log = diagLog cfg pages := by
  intro obs
  induction obs with
  | nil =>
    intro checked opsi log h
    simp [runCur] at h
  | cons o rest ih =>
    intro checked opsi log h
    unfold runCur at h
    by_cases ht : o.timeoutReached
    · rw [if_pos ht] at h
      exact (Prod.mk.injEq _ _ _ _ ▸ h).1.symm
    · rw [if_neg ht] at h
      cases hf : findPage pages o.appearBtn with
      | some pid =>
        simp [hf] at h
      | none =>
        simp only [hf] at h
        by_cases g1 : o.gotoMain
        · rw [if_pos g1] at h
          exact ih checked opsi log h
        · rw [if_neg g1] at h
          by_cases g2 : o.gotoMainWhite
          · rw [if_pos g2] at h
            exact ih checked opsi log h
          · rw [if_neg g2] at h
            by_cases g3 : o.rpgHome
            · rw [if_pos g3] at h
              exact ih checked opsi log h
            · rw [if_neg g3] at h
              cases hu : uiAdditional true opsi o.ua o.ua2 with
              | error e =>
                simp [hu] at h
              | ok t =>
                obtain ⟨cs, b, opsi'⟩ := t
                cases b with
                | true =>
                  simp only [hu] at h
                  exact ih checked opsi' log h
                | false =>
                  simp only [hu] at h
                  by_cases hc : !checked && !o.appRunning
                  · rw [if_pos hc] at h
                    simp at h
                  · rw [if_neg hc] at h
                    exact ih true opsi' log h

end Nav

namespace Click

/-- Running through a quiet block only drags the confirmation timer's
reset time along. -/
theorem uiClickRun_falseBlock (addPresent : Bool) (confirmWait retryWait : Nat) :
    ∀ (n a c : Nat) (ys : List UcTick), 1 ≤ n →
      uiClickRun addPresent confirmWait retryWait ⟨c, none⟩
          (falseBlock a n ++ ys) =
        uiClickRun addPresent confirmWait retryWait ⟨a + n - 1, none⟩ ys := by
  intro n
  induction n with
  | zero => intro a c ys h; omega
  | succ m ih =>
    intro a c ys _
    cases m with
    | zero =>
      simp [falseBlock, falseTick, uiClickRun, clickReady]
    | succ m' =>
      have step : uiClickRun addPresent confirmWait retryWait ⟨c, none⟩
          (falseBlock a (m' + 1 + 1) ++ ys) =
          uiClickRun addPresent confirmWait retryWait ⟨a, none⟩
            (falseBlock (a + 1) (m' + 1) ++ ys) := by
        simp [falseBlock, falseTick, uiClickRun, clickReady]
      rw [step, ih (a + 1) a ys (by omega)]
      congr 2
      omega

/-- Within a holding block started from a confirmation timer last reset
at time `c`, success occurs exactly when some holding tick lies at
least the window past `c`. -/
theorem uiClickRun_trueBlock (addPresent : Bool) (confirmWait retryWait : Nat) :
    ∀ (d a c : Nat),
      ((uiClickRun addPresent confirmWait retryWait ⟨c, none⟩
          (trueBlock a d)).2 = .success ↔
        ∃ i, i < d ∧ effectiveConfirmWait addPresent confirmWait ≤ a + i - c) := by
  intro d
  induction d with
  | zero =>
    intro a c
    simp [trueBlock, uiClickRun]
  | succ m ih =>
    intro a c
    by_cases hw : effectiveConfirmWait addPresent confirmWait ≤ a - c
    · constructor
      · intro _
        exact ⟨0, by omega, by simpa using hw⟩
      · intro _
        simp [trueBlock, trueTick, uiClickRun, hw]
    · have step : uiClickRun addPresent confirmWait retryWait ⟨c, none⟩
          (trueBlock a (m + 1)) =
          uiClickRun addPresent confirmWait retryWait ⟨c, none⟩
            (trueBlock (a + 1) m) := by
        simp [trueBlock, trueTick, uiClickRun, clickReady, hw]
      rw [step, ih (a + 1) c]
      constructor
      · rintro ⟨i, hi, hle⟩
        exact ⟨i + 1, by omega, by omega⟩
      · rintro ⟨i, hi, hle⟩
        match i with
        | 0 =>
          exact absurd (by simpa using hle) hw
        | Nat.succ i' =>
          exact ⟨i', by omega, by omega⟩

/-- With no `additional` handler, `ui_click` accepts the arrival
condition on the very first tick it holds: the confirmation window is
zero. -/
theorem uiClickRun_no_additional (confirmWait retryWait : Nat) :
    ∀ (ticks : List UcTick) (st : UcState),
      ((uiClickRun false confirmWait retryWait st ticks).2 = .success ↔
        ∃ k ∈ ticks, k.target = true) := by
  intro ticks
  induction ticks with
  | nil =>
    intro st
    simp [uiClickRun]
  | cons k rest ih =>
    intro st
    by_cases hk : k.target
    · constructor
      · intro _
        exact ⟨k, List.mem_cons_self k rest, hk⟩
      · intro _
        simp [uiClickRun, hk, effectiveConfirmWait]
    · have hk' : k.target = false := by simpa using hk
      constructor
      · intro h
        unfold uiClickRun at h
        rw [hk'] at h
        simp only [Bool.false_and, Bool.false_eq_true, if_false] at h
        by_cases hc : clickReady retryWait { st with confLast := k.now } k.now && k.appearB
        · rw [if_pos hc] at h
          simp only at h
          obtain ⟨k', hk1, hk2⟩ := (ih _).mp h
          exact ⟨k', List.mem_cons_of_mem _ hk1, hk2⟩
        · rw [if_neg hc] at h
          obtain ⟨k', hk1, hk2⟩ := (ih _).mp h
          exact ⟨k', List.mem_cons_of_mem _ hk1, hk2⟩
      · rintro ⟨k', hk1, hk2⟩
        rcases List.mem_cons.mp hk1 with rfl | hk1'
        · exact absurd hk2 (by simpa using hk)
        · unfold uiClickRun
          rw [hk']
          simp only [Bool.false_and, Bool.false_eq_true, if_false]
          by_cases hc : clickReady retryWait { st with confLast := k.now } k.now && k.appearB
          · rw [if_pos hc]
            simp only
            exact (ih _).mpr ⟨k', hk1', hk2⟩
          · rw [if_neg hc]
            exact (ih _).mpr ⟨k', hk1', hk2⟩

end Click

namespace Claims

open AlasUI Coalition Nav

/-- Claim C1, counterexample.  `enter_map` instantiated for the
20230323 event, stage tc2, on a trace where the agent stays on the
coalition page with the entrance clickable and the target
(BATTLE_PREPARATION) never true: SIX clicks of the entrance button are
issued before RequestHumanTakeover is raised (the guard
`campaign_click > 5` at line 531 only fires at the top of the iteration
after the sixth click), contradicting "exactly 5 clicks are issued and
then a fatal condition is raised — never a 6th click". -/
theorem enter_map_sixth_click :
    enterMap .c20230323 "tc2" "single" (List.replicate 7 c1Obs) =
      (List.replicate 6 (CKind.entrance, CBtn.FROSTFALL_TC2), .fatal) ∧
    countKind .entrance
      (enterMap .c20230323 "tc2" "single" (List.replicate 7 c1Obs)).1 = 6 :=
  ⟨by decide, by decide⟩

/-- Claim C1, amended.  With a target condition that never becomes
true: (a) the OpSi RESET_FLEET_PREPARATION counter (guard `>= 5`,
checked before any click) issues exactly `min length 5` clicks over any
trace on which the popup keeps appearing, and raises
RequestHumanTakeover exactly when the trace reaches a sixth tick —
never a 6th click; (b) `enter_map`'s per-button campaign counter (guard
`> 5`, checked at the top of the next iteration) issues at most 6
entrance clicks over any trace whatsoever; and (c) on the canonical
never-arriving trace it issues exactly 6 clicks and then raises, never
a 7th, whatever the continuation of the trace. -/
theorem bounded_clicks_amended :
    (∀ obs : List Obs,
      (∀ o ∈ obs, o.appear .RESET_TICKET_POPUP = false ∧
        o.appear .RESET_FLEET_PREPARATION = true) →
      (runOsLoop 0 obs).1 = min obs.length 5 ∧
      ((runOsLoop 0 obs).2 = true ↔ 6 ≤ obs.length)) ∧
    (∀ (ev : CoEvent) (stage mode : String) (d : EMData) (obs : List EMObs),
      countKind .entrance (runEM ev stage mode d emState0 obs).1 ≤ 6) ∧
    (∀ rest : List EMObs,
      runEM .c20230323 "tc2" "single"
        ⟨.FROSTFALL_TC2, none, .FROSTFALL_FLEET_PREPARATION⟩ emState0
        (c1Obs :: c1Obs :: c1Obs :: c1Obs :: c1Obs :: c1Obs :: c1Obs :: rest) =
        (List.replicate 6 (CKind.entrance, CBtn.FROSTFALL_TC2), .fatal)) := by
  refine ⟨fun obs h => ?_, fun ev stage mode d obs => ?_, fun rest => rfl⟩
  · obtain ⟨h1, h2⟩ := runOsLoop_spec obs 0 (by omega) h
    refine ⟨by simpa using h1, ?_⟩
    rw [h2]
    omega
  · have := runEM_entrance_bound ev stage mode d obs emState0
    simpa using this

/-- Claim C8: for the 20251120 event, the initialization prologue of
`enter_map` always ends with `button_difficulty = None` — the second
branch (lines 505-508), keyed on the 20260122 event, unconditionally
overwrites the value set by the first branch (lines 499-502) — and
consequently no tick of the main loop ever issues a
difficulty-selection click. -/
theorem enter_map_20251120_no_difficulty_click (stage : String) (d : EMData)
    (h : enterMapInit .c20251120 stage = .ok d) :
    d.buttonDifficulty = none ∧
    ∀ (mode : String) (st : EMState) (obs : List EMObs),
      countKind .difficulty (runEM .c20251120 stage mode d st obs).1 = 0 := by
  have hd : d.buttonDifficulty = none := by
    unfold enterMapInit at h
    cases hE : coalitionGetEntrance .c20251120 stage with
    | error e0 =>
      rw [hE] at h
      cases h
    | ok b0 =>
      rw [hE] at h
      cases hD : coalition20251120GetEntranceDifficulty .c20251120 stage with
      | error e1 =>
        simp [hD, Except.map] at h
      | ok bd1 =>
        simp only [hD, Except.map, if_pos rfl] at h
        simp at h
        obtain ⟨h1, rfl⟩ := h
        rfl
  exact ⟨hd, fun mode st obs =>
    runEM_no_difficulty .c20251120 stage mode d hd obs st⟩

/-- Witness for `enter_map_20251120_no_difficulty_click` at the
concrete stage area1-normal. -/
theorem enter_map_20251120_no_difficulty_click_witness :
    (⟨.DAL_AREA1, none, .DAL_FLEET_PREPARATION⟩ : EMData).buttonDifficulty = none ∧
    ∀ (mode : String) (st : EMState) (obs : List EMObs),
      countKind .difficulty
        (runEM .c20251120 "area1-normal" mode
          ⟨.DAL_AREA1, none, .DAL_FLEET_PREPARATION⟩ st obs).1 = 0 :=
  enter_map_20251120_no_difficulty_click "area1-normal"
    ⟨.DAL_AREA1, none, .DAL_FLEET_PREPARATION⟩ (by decide)

/-- Claim C9: for the 20251120 event, `handle_fleet_preparation` has no
early-return case, so it always calls `coalition_ensure_fleet`, whose
branch chain (20230323, 20240627, 20250626, 20260122) has no arm for
20251120 and raises ScriptError in its else branch — for every stage
and mode; and consequently, on the first loop tick of `enter_map` on
which the fleet-preparation screen has been reached (observation
`c9Obs`), the iteration ends in ScriptError. -/
theorem handle_fleet_preparation_always_raises :
    (∀ stage mode : String,
      handleFleetPreparation .c20251120 stage mode = .error .scriptError) ∧
    (∀ (stage mode : String) (d : EMData) (st : EMState),
      st.campaignClick ≤ 5 → st.difficultyClick ≤ 5 → st.fleetClick ≤ 5 →
      emTick .c20251120 stage mode d st c9Obs = .script) := by
  constructor
  · intro stage mode
    simp [handleFleetPreparation, coalitionEnsureFleet]
  · intro stage mode d st h1 h2 h3
    have n1 : ¬ 5 < st.campaignClick := by omega
    have n2 : ¬ 5 < st.difficultyClick := by omega
    have n3 : ¬ 5 < st.fleetClick := by omega
    simp [emTick, emInterrupts, emClickSites, c9Obs, c1Obs, n1, n2, n3,
      handleFleetPreparation, coalitionEnsureFleet]

/-- Claim C3, counterexample.  With `additional = None` and
`confirm_wait = 3`, an arrival condition that holds for a single tick
(far less than the window) and then drops IS accepted as success —
line 179 zeroes the confirmation window whenever `additional` is None —
while the very same trace with an `additional` handler supplied is
correctly not accepted. -/
theorem ui_click_flicker_accepted_without_additional :
    (Click.uiClickRun false 3 10 ⟨0, none⟩ Click.c3Flicker).2 = .success ∧
    (Click.uiClickRun true 3 10 ⟨0, none⟩ Click.c3Flicker).2 ≠ .success :=
  ⟨by decide, by decide⟩

/-- Claim C3, amended.  The confirmation window of `ui_click` applies
only when `additional` is supplied: (a) with `additional = None` the
window is zero and the run succeeds exactly when some tick shows the
arrival condition — a single-tick flicker is accepted; (b) with an
`additional` handler and window `W ≥ 1`, on a trace that is quiet for
`s ≥ 1` ticks and then holds the condition for `d` consecutive unit
ticks, the run succeeds exactly when the condition held for the whole
window, `W ≤ d` (time measured from the last tick on which the
condition was false). -/
theorem ui_click_confirmation_window (confirmWait retryWait : Nat) :
    (∀ (ticks : List Click.UcTick) (st : Click.UcState),
      ((Click.uiClickRun false confirmWait retryWait st ticks).2 =
          .success ↔ ∃ k ∈ ticks, k.target = true)) ∧
    (∀ s d : Nat, 1 ≤ confirmWait → 1 ≤ s →
      ((Click.uiClickRun true confirmWait retryWait ⟨0, none⟩
          (Click.holdTrace s d)).2 = .success ↔ confirmWait ≤ d)) := by
  constructor
  · exact fun ticks st =>
      Click.uiClickRun_no_additional confirmWait retryWait ticks st
  · intro s d hw hs
    unfold Click.holdTrace
    rw [Click.uiClickRun_falseBlock true confirmWait retryWait s 0 0 _ hs]
    rw [Click.uiClickRun_trueBlock true confirmWait retryWait d s (0 + s - 1)]
    have heff : Click.effectiveConfirmWait true confirmWait = confirmWait := rfl
    constructor
    · rintro ⟨i, hi, hle⟩
      rw [heff] at hle
      omega
    · intro hle
      refine ⟨confirmWait - 1, by omega, ?_⟩
      rw [heff]
      omega

/-- Claim C2, counterexample.  On the spec's Main → Event → StageList
graph, a `ui_goto(StageList)` call during which the interrupt chain
confirms the OpSi reset-fleet popup five times and then raises
RequestHumanTakeover on the sixth tick exits fatally with the parent
pointers still set (Event's parent is StageList, Main's parent is
Event): `Page.clear_connection()` at module/ui/ui.py line 382 is only
reached on the arrival path — there is no `try/finally`. -/
theorem ui_goto_stale_parents_on_fatal :
    (uiGoto c2Pages stagePage true 0 (List.replicate 6 c2Obs)).out = .fatal ∧
    (uiGoto c2Pages stagePage true 0 (List.replicate 6 c2Obs)).parents 1 = some 2 ∧
    (uiGoto c2Pages stagePage true 0 (List.replicate 6 c2Obs)).parents 0 = some 1 :=
  ⟨by decide, by decide, by decide⟩

/-- Claim C2, amended.  `Page.clear_connection()` is executed on the
arrival (success) exit of `ui_goto`, leaving every parent pointer null;
on any other exit — in particular a fatal RequestHumanTakeover raised
from the interrupt chain — the parent pointers are NOT cleared and keep
the values registered by `Page.init_connection`. -/
theorem clear_connection_success_path_only (pages : List GPage) (dest : GPage)
    (getShip : Bool) (opsi : Nat) (obs : List GObs) :
    ((uiGoto pages dest getShip opsi obs).out = .done →
      ∀ pid, (uiGoto pages dest getShip opsi obs).parents pid = none) ∧
    ((uiGoto pages dest getShip opsi obs).out ≠ .done →
      ∀ pid, (uiGoto pages dest getShip opsi obs).parents pid =
        initConnection pages dest pid) := by
  obtain ⟨h1, h2⟩ :=
    uiGotoLoop_parents pages dest getShip (initConnection pages dest) obs opsi
  exact ⟨fun hd pid => congrFun (h1 hd) pid, fun hnd pid => congrFun (h2 hnd) pid⟩

/-- Claim C5: navigation to an already-displayed destination is a
no-op.  (a) When the destination's predicate holds on the first tick,
`ui_goto` issues no navigation click and no interrupt click and returns
arrived — the destination test at line 357 precedes the page scan and
any click; (b) `ui_ensure` returns False (`.already`) without invoking
`ui_goto` when the page identified by `ui_get_current_page` equals the
destination. -/
theorem navigate_arrival_idempotent :
    (∀ (pages : List GPage) (dest : GPage) (getShip : Bool) (opsi : Nat)
        (o : GObs) (rest : List GObs),
      uiPageAppearP dest o = true →
      (uiGoto pages dest getShip opsi (o :: rest)).navClicks = [] ∧
      (uiGoto pages dest getShip opsi (o :: rest)).intClicks = [] ∧
      (uiGoto pages dest getShip opsi (o :: rest)).out = .done) ∧
    (∀ (cfg : AlasCfg) (pages : List GPage) (checked : Bool) (opsi : Nat)
        (cobs : List CObs) (dest : GPage) (gobs : List GObs),
      (runCur cfg pages checked opsi cobs).2 = .page dest.id →
      uiEnsure cfg pages checked opsi cobs dest gobs = .already) := by
  constructor
  · intro pages dest getShip opsi o rest h
    refine ⟨?_, ?_, ?_⟩ <;> simp [uiGoto, uiGotoLoop, h]
  · intro cfg pages checked opsi cobs dest gobs h
    simp [uiEnsure, h]

/-- Claim C6: when the overall timeout of `ui_get_current_page` is
reached, the call emits the diagnostic dump — screenshot method,
control method, server, and the list of known page identifiers — and
ends in GamePageUnknownError regardless of any further observations
(no retry); conversely, every GamePageUnknownError exit carries exactly
that diagnostic dump. -/
theorem unknown_page_fatal_diagnostics (cfg : AlasCfg) (pages : List GPage) :
    (∀ (checked : Bool) (opsi : Nat) (o : CObs) (rest : List CObs),
      o.timeoutReached = true →
      runCur cfg pages checked opsi (o :: rest) =
        ([.screenshotMethod cfg.screenshotMethod,
          .controlMethod cfg.controlMethod,
          .server cfg.server,
          .supportedPages (pages.map GPage.name)], .unknownPage)) ∧
    (∀ (checked : Bool) (opsi : Nat) (obs : List CObs) (log : List LogEntry),
      runCur cfg pages checked opsi obs = (log, .unknownPage) →
      log = diagLog cfg pages) := by
  constructor
  · intro checked opsi o rest h
    simp [runCur, h, diagLog]
  · exact fun checked opsi obs log h =>
      runCur_unknown_log cfg pages obs checked opsi log h

/-- Claim C7: a navigation click produced by the page scan of
`ui_goto`'s loop is always `page.links[page.parent]` for a page whose
own check button was visually confirmed on the current frame; no
navigation click is issued for an unrecognized page. -/
theorem nav_click_only_on_recognized_page (pages : List GPage)
    (par : Nat → Option Nat) (o : GObs) (pid b : Nat)
    (h : gotoScan pages par o = some (.click pid b)) :
    ∃ p ∈ pages, p.id = pid ∧ ∃ cb, p.checkButton = some cb ∧
      o.appearBtn cb = true ∧
      ∃ parentId, par p.id = some parentId ∧
        p.links.lookup parentId = some b := by
  induction pages with
  | nil => simp [gotoScan] at h
  | cons p rest ih =>
    cases hpar : par p.id with
    | none =>
      cases hcb : p.checkButton with
      | none =>
        simp only [gotoScan, hpar, hcb] at h
        obtain ⟨p', hp', hrest⟩ := ih h
        exact ⟨p', List.mem_cons_of_mem _ hp', hrest⟩
      | some cb =>
        simp only [gotoScan, hpar, hcb] at h
        obtain ⟨p', hp', hrest⟩ := ih h
        exact ⟨p', List.mem_cons_of_mem _ hp', hrest⟩
    | some parentId =>
      cases hcb : p.checkButton with
      | none =>
        simp only [gotoScan, hpar, hcb] at h
        obtain ⟨p', hp', hrest⟩ := ih h
        exact ⟨p', List.mem_cons_of_mem _ hp', hrest⟩
      | some cb =>
        simp only [gotoScan, hpar, hcb] at h
        by_cases hap : o.appearBtn cb
        · rw [if_pos hap] at h
          cases hlk : p.links.lookup parentId with
          | none =>
            simp only [hlk] at h
            simp at h
          | some b0 =>
            simp only [hlk, Option.some.injEq] at h
            obtain ⟨h1, h2⟩ := ScanRes.click.inj h
            exact ⟨p, List.mem_cons_self p rest, h1, cb, hcb, hap, parentId,
              hpar, h2 ▸ hlk⟩
        · rw [if_neg hap] at h
          obtain ⟨p', hp', hrest⟩ := ih h
          exact ⟨p', List.mem_cons_of_mem _ hp', hrest⟩

/-- Witness for `nav_click_only_on_recognized_page`: on the scenario
graph with Main recognized as current during `ui_goto(StageList)`, the
scan clicks Main's link toward Event. -/
theorem nav_click_only_on_recognized_page_witness :
    ∃ p ∈ c2Pages, p.id = 0 ∧ ∃ cb, p.checkButton = some cb ∧
      (⟨fun x => x = 10, AlasUI.blankObs, AlasUI.blankObs⟩ : GObs).appearBtn cb = true ∧
      ∃ parentId, initConnection c2Pages stagePage p.id = some parentId ∧
        p.links.lookup parentId = some 100 :=
  nav_click_only_on_recognized_page c2Pages (initConnection c2Pages stagePage)
    ⟨fun x => x = 10, AlasUI.blankObs, AlasUI.blankObs⟩ 0 100 (by decide)

/-- Claim C10: for the 20260122 event, every call to `enter_map` fails
during the initialization prologue, before the main loop and before any
click; when the stage passes the entrance lookup (line 497/503), the
failure is precisely the attribute-lookup error from invoking the
undefined method `coalition_20260122_get_entrance_difficulty`
(line 506) — the only difficulty lookup the class defines is
`coalition_20251120_get_entrance_difficulty`. -/
theorem enter_map_20260122_always_fails (stage mode : String)
    (obs : List EMObs) :
    ∃ e, enterMapInit .c20260122 stage = .error e ∧
      enterMap .c20260122 stage mode obs = ([], .initErr e) ∧
      ∀ b, coalitionGetEntrance .c20260122 stage = .ok b →
        e = .attributeError := by
  cases hE : coalitionGetEntrance .c20260122 stage with
  | error e0 =>
    have hinit : enterMapInit .c20260122 stage = .error e0 := by
      simp [enterMapInit, hE]
    refine ⟨e0, hinit, ?_, ?_⟩
    · simp [enterMap, hinit]
    · intro b hb
      exact Except.noConfusion hb
  | ok b0 =>
    have hinit : enterMapInit .c20260122 stage = .error .attributeError := by
      simp [enterMapInit, hE]
    refine ⟨.attributeError, hinit, ?_, fun b hb => rfl⟩
    simp [enterMap, hinit]

end Claims
